import Mathlib

/-!
# rpi-backlight: a shallow embedding of `rpi-backlight.c`

The program reads two sysfs attributes (backlight brightness and power), maps a
command keyword to new values, clamps them, and writes them back, persisting
the brightness to a per-user config file.

Modelling choices:

* The three files are modelled by the integer their decimal text denotes; `none`
  means the file is absent (config) or cannot be opened (device attributes).
* The two device files are sysfs attributes, which the kernel prints from an `int`:
  reading them yields the stored integer. The config file is a regular file that
  anyone may edit, so its integer is unbounded and is read through `fscanf_d`.
* Each `fopen` of the config file may fail (`configCreatable`, `configReadable`,
  `configWritable`); the source does not check the result at lines 87 and 100, so
  a failure there ends in `crash`.
* Every write is appended to `World.log`, oldest first, so the order of writes
  of one invocation can be inspected.
* `exit(status)` is a distinct outcome from a normal return; dereferencing the
  `NULL` stream of an unchecked `fopen` is the outcome `crash`.
* C `int` arithmetic (`+=`, `-=`) is reduced to the 32-bit two's complement
  range by `wrapInt32`.
* Text printed to stdout/stderr is not modelled.
-/

namespace RpiBacklight

/-! ## Constants (lines 19-29 and `stdlib.h`) -/

def POWER_ON : Int := 0
def POWER_OFF : Int := 1

def BRIGHTNESS_MAX : Int := 9
def BRIGHTNESS_MIN : Int := 1
def BRIGHTNESS_STEP : Int := 1

/-- The integer denoted by the text `DEFAULT_CONTENT` ("3"). -/
def DEFAULT_CONTENT : Int := 3
def FILENAME : String := "rpi-backlight"

def EXIT_SUCCESS : Int := 0
def EXIT_FAILURE : Int := 1

/-- Reduction of a mathematical integer to the range of a 32-bit `int`. -/
def wrapInt32 (x : Int) : Int := (x + 2147483648) % 4294967296 - 2147483648

def LONG_MAX : Int := 9223372036854775807
def LONG_MIN : Int := -9223372036854775808

/-- The C library `strtol` on the decimal text of `x`, with a 64-bit `long`: the
result saturates at `LONG_MAX` / `LONG_MIN`. -/
def strtol (x : Int) : Int :=
  if x > LONG_MAX then LONG_MAX else if x < LONG_MIN then LONG_MIN else x

/-- The value `fscanf(f, "%d", &v)` stores in the `int` `v` when the file holds the
decimal text of `x`: the C library converts the digits with `strtol` and narrows
the `long` to `int`. For `x` in the range of `int` this is `x`. -/
def fscanf_d (x : Int) : Int := wrapInt32 (strtol x)

/-! ## The environment -/

/-- One write to a file, with the integer written. `configCreate` is the
`fopen "w"` + `fputs DEFAULT_CONTENT` of `ensure_file_exists`; `configWrite`
is the `fprintf` of `store_brightness_in_confg`. -/
inductive Event where
  | configCreate (v : Int)
  | configWrite (v : Int)
  | brightnessWrite (v : Int)
  | powerWrite (v : Int)
  deriving DecidableEq, Repr

/-- The integer a write event stores. -/
def Event.value : Event → Int
  | .configCreate v => v
  | .configWrite v => v
  | .brightnessWrite v => v
  | .powerWrite v => v

/-- Writes (creation included) that touch the config file. -/
def Event.isConfig : Event → Bool
  | .configCreate _ => true
  | .configWrite _ => true
  | _ => false

/-- Writes that touch the device brightness file. -/
def Event.isBrightness : Event → Bool
  | .brightnessWrite _ => true
  | _ => false

/-- Writes that touch the device power file. -/
def Event.isPower : Event → Bool
  | .powerWrite _ => true
  | _ => false

/-- The part of the machine the program interacts with. -/
structure World where
  /-- Value of the `HOME` environment variable, if set. -/
  home : Option String
  /-- Whether `malloc` in `get_config_path` returns a buffer. -/
  mallocOk : Bool
  /-- Whether `fopen(path, "w")` succeeds for a config file that does not exist. -/
  configCreatable : Bool
  /-- Whether `fopen(path, "r")` succeeds for a config file that exists. -/
  configReadable : Bool
  /-- Whether `fopen(path, "w")` succeeds for a config file that exists. -/
  configWritable : Bool
  /-- Integer held by `$HOME/.config/rpi-backlight`; `none` when `stat` fails. -/
  config : Option Int
  /-- Integer held by `BRIGHTNESS_FILE`; `none` when it cannot be opened. -/
  brightness : Option Int
  /-- Integer held by `POWER_FILE`; `none` when it cannot be opened. -/
  power : Option Int
  /-- Writes performed so far, oldest first. -/
  log : List Event
  deriving DecidableEq, Repr

/-- Outcome of running a C function in a world. -/
inductive Step (α : Type) where
  /-- The function returned `a`. -/
  | ret (a : α) (w : World)
  /-- The function called `exit(status)`. -/
  | exit (status : Int) (w : World)
  /-- The function passed a `NULL` stream to stdio. -/
  | crash (w : World)
  deriving DecidableEq, Repr

/-- Sequencing: continue with `f` only after a normal return. -/
def Step.bind {α β : Type} (s : Step α) (f : α → World → Step β) : Step β :=
  match s with
  | .ret a w => f a w
  | .exit st w => .exit st w
  | .crash w => .crash w

/-- The world in which an outcome ends. -/
def Step.world {α : Type} : Step α → World
  | .ret _ w => w
  | .exit _ w => w
  | .crash w => w

/-- Process exit status of an outcome of `main`: the value returned from `main`
or passed to `exit`; `none` for a crash. -/
def Step.status : Step Int → Option Int
  | .ret s _ => some s
  | .exit s _ => some s
  | .crash _ => none

/-! ## The program -/

/-- Lines 31-44: prints the usage block and returns `EXIT_FAILURE`. -/
def usage (_argv : List String) (w : World) : Step Int :=
  .ret EXIT_FAILURE w

/-- Whether `fopen(path, "w")` on the config path returns a stream: the file is
created when absent and truncated when present. -/
def config_fopen_w (w : World) : Bool :=
  match w.config with
  | none => w.configCreatable
  | some _ => w.configWritable

/-- The integer seen through `fopen(path, "r")` on the config path; `none` when
`fopen` returns `NULL` (file absent or not readable). -/
def config_fopen_r (w : World) : Option Int :=
  match w.config with
  | none => none
  | some x => if w.configReadable then some x else none

/-- Lines 46-62. -/
def get_config_path (w : World) : Step String :=
  match w.home with
  | none => .exit EXIT_FAILURE w
  | some home =>
    if w.mallocOk then .ret (home ++ "/.config/" ++ FILENAME) w
    else .exit EXIT_FAILURE w

/-- Lines 64-78. -/
def ensure_file_exists (_filepath : String) (w : World) : Step Unit :=
  match w.config with
  | some _ => .ret () w
  | none =>
    if config_fopen_w w then
      .ret () { w with config := some DEFAULT_CONTENT,
                       log := w.log ++ [Event.configCreate DEFAULT_CONTENT] }
    else .exit EXIT_FAILURE w

/-- Lines 81-91. The result of `fopen` at line 87 is not checked: when it is `NULL`
the `fprintf` at line 88 crashes. -/
def store_brightness_in_confg (value : Int) (w : World) : Step Unit :=
  (get_config_path w).bind fun path w =>
  (ensure_file_exists path w).bind fun _ w =>
  if config_fopen_w w then
    .ret () { w with config := some value, log := w.log ++ [Event.configWrite value] }
  else .crash w

/-- Lines 93-107. The result of `fopen` at line 100 is not checked: when it is
`NULL` the `fscanf` at line 101 crashes. -/
def get_brightness_from_config (w : World) : Step Int :=
  (get_config_path w).bind fun path w =>
  (ensure_file_exists path w).bind fun _ w =>
  match config_fopen_r w with
  | none => .crash w
  | some x => .ret (fscanf_d x) w

/-- Lines 108-117. -/
def get_brightness (w : World) : Step Int :=
  match w.brightness with
  | none => .crash w
  | some brightness_value => .ret brightness_value w

/-- Lines 121-122: the two clamping assignments at the head of `set_brightness`. -/
def clamp_brightness (brightness_value : Int) : Int :=
  let brightness_value :=
    if brightness_value > BRIGHTNESS_MAX then BRIGHTNESS_MAX else brightness_value
  let brightness_value :=
    if brightness_value < BRIGHTNESS_MIN then BRIGHTNESS_MIN else brightness_value
  brightness_value

/-- Lines 119-134. -/
def set_brightness (old_bright brightness_value : Int) (w : World) : Step Unit :=
  let brightness_value := clamp_brightness brightness_value
  if old_bright = brightness_value then .ret () w
  else
    (store_brightness_in_confg brightness_value w).bind fun _ w =>
    match w.brightness with
    | none => .crash w
    | some _ =>
      .ret () { w with brightness := some brightness_value,
                       log := w.log ++ [Event.brightnessWrite brightness_value] }

/-- Lines 136-145. -/
def get_power (w : World) : Step Int :=
  match w.power with
  | none => .crash w
  | some power_value => .ret power_value w

/-- Lines 148-149: the two coercing assignments at the head of `set_power`. -/
def clamp_power (power_value : Int) : Int :=
  let power_value := if power_value > POWER_OFF then POWER_ON else power_value
  let power_value := if power_value < POWER_ON then POWER_OFF else power_value
  power_value

/-- Lines 147-156. -/
def set_power (power_value : Int) (w : World) : Step Unit :=
  let power_value := clamp_power power_value
  match w.power with
  | none => .crash w
  | some _ =>
    .ret () { w with power := some power_value,
                     log := w.log ++ [Event.powerWrite power_value] }

/-- Lines 185-211: the keyword dispatch of `main`. Returns the pair
`(brightness_value, power_value)` held by the locals when control reaches
line 213, or `none` when the final `else` (`return usage(argv)`) is taken. -/
def process_arguments (arg1 : String) (brightness_value power_value : Int) (w : World) :
    Step (Option (Int × Int)) :=
  if arg1 = "up" then
    .ret (some (wrapInt32 (brightness_value + BRIGHTNESS_STEP), power_value)) w
  else if arg1 = "down" then
    .ret (some (wrapInt32 (brightness_value - BRIGHTNESS_STEP), power_value)) w
  else if arg1 = "max" then
    .ret (some (BRIGHTNESS_MAX, power_value)) w
  else if arg1 = "min" then
    .ret (some (BRIGHTNESS_MIN, power_value)) w
  else if arg1 = "sync" then
    (get_brightness_from_config w).bind fun brightness_value w =>
    .ret (some (brightness_value, power_value)) w
  else if arg1 = "default" then
    .ret (some (3, power_value)) w
  else if arg1 = "on" then
    .ret (some (brightness_value, POWER_ON)) w
  else if arg1 = "off" then
    .ret (some (brightness_value, POWER_OFF)) w
  else
    .ret none w

/-- Lines 213-217: save the new values and return success. -/
def save_new_values (old_bright brightness_value power_value : Int) (w : World) : Step Int :=
  (set_brightness old_bright brightness_value w).bind fun _ w =>
  (set_power power_value w).bind fun _ w =>
  .ret EXIT_SUCCESS w

/-- Lines 158-218. `argv` is the whole argument vector, program name first;
`argc` is its length. -/
def main (argv : List String) (w : World) : Step Int :=
  if argv.length ≠ 2 then usage argv w
  else
    match w.power with
    | none => .ret EXIT_FAILURE w
    | some _ =>
      match w.brightness with
      | none => .ret EXIT_FAILURE w
      | some _ =>
        (get_brightness w).bind fun old_bright w =>
        (get_power w).bind fun power_value w =>
        (process_arguments (argv.getD 1 "") old_bright power_value w).bind fun r w =>
        match r with
        | none => usage argv w
        | some (brightness_value, power_value) =>
          save_new_values old_bright brightness_value power_value w

/-- The eight command keywords. -/
def commands : List String := ["up", "down", "max", "min", "sync", "default", "on", "off"]

/-- The six keywords that request a brightness. -/
def brightness_commands : List String := ["up", "down", "max", "min", "sync", "default"]

/-- A sample machine: `HOME` set, config file holding 4, brightness 5, power on. -/
def sampleWorld : World :=
  { home := some "/home/pi", mallocOk := true, configCreatable := true,
    configReadable := true, configWritable := true, config := some 4,
    brightness := some 5, power := some 0, log := [] }

/-- A first run: `HOME` set, config file absent but creatable, brightness 3, power on. -/
def freshWorld : World :=
  { sampleWorld with config := none, brightness := some 3 }

/-- A machine whose backlight was set to 0 by another tool. -/
def darkWorld : World :=
  { sampleWorld with brightness := some 0 }

/-- A machine on which `HOME` is not set. -/
def homelessWorld : World :=
  { sampleWorld with home := none }

/-- A machine whose config file was edited to hold 2147483648, one more than the
largest `int`. -/
def overflowWorld : World :=
  { sampleWorld with config := some 2147483648 }

/-- A machine whose config file exists but cannot be opened. -/
def lockedWorld : World :=
  { sampleWorld with configReadable := false, configWritable := false }

/-! ## Basic facts about the embedding -/

theorem clamp_brightness_eq (x : Int) : clamp_brightness x = max 1 (min x 9) := by
  unfold clamp_brightness BRIGHTNESS_MAX BRIGHTNESS_MIN
  simp only []
  split_ifs <;> omega

theorem clamp_power_eq (p : Int) :
    clamp_power p = if p = 0 ∨ p = 1 then p else if p > 1 then 0 else 1 := by
  unfold clamp_power POWER_ON POWER_OFF
  simp only []
  split_ifs <;> omega

theorem main_eq (prog cmd : String) (w : World) (b p : Int)
    (hb : w.brightness = some b) (hp : w.power = some p) :
    main [prog, cmd] w =
      (process_arguments cmd b p w).bind fun r w1 =>
        match r with
        | none => usage [prog, cmd] w1
        | some (bv, pv) => save_new_values b bv pv w1 := by
  simp [main, hb, hp, get_brightness, get_power, Step.bind]

theorem fscanf_d_small (x : Int) (hlo : -2147483648 ≤ x) (hhi : x ≤ 2147483647) :
    fscanf_d x = x := by
  unfold fscanf_d strtol wrapInt32 LONG_MAX LONG_MIN
  split_ifs <;> omega

theorem fscanf_d_default : fscanf_d DEFAULT_CONTENT = DEFAULT_CONTENT := by decide

/-- The four ways lines 213-217 can end when both device files can be opened:
no brightness change (only the power write), an `exit` from the config helpers
before any write, a crash on the unchecked `fopen` of the config file, or the
full write sequence. -/
theorem save_new_values_cases (old bv pv b0 p0 : Int) (w : World)
    (hb : w.brightness = some b0) (hp : w.power = some p0) :
    (old = clamp_brightness bv ∧
      save_new_values old bv pv w =
        .ret EXIT_SUCCESS { w with power := some (clamp_power pv),
                                   log := w.log ++ [Event.powerWrite (clamp_power pv)] }) ∨
    (old ≠ clamp_brightness bv ∧
      (w.home = none ∨ w.mallocOk = false ∨ (w.config = none ∧ w.configCreatable = false)) ∧
      save_new_values old bv pv w = .exit EXIT_FAILURE w) ∨
    (old ≠ clamp_brightness bv ∧ w.home ≠ none ∧ w.mallocOk = true ∧
      w.configWritable = false ∧
      ∃ (pre : List Event) (cfg : Option Int),
        ((w.config ≠ none ∧ pre = [] ∧ cfg = w.config) ∨
          (w.config = none ∧ w.configCreatable = true ∧
            pre = [Event.configCreate DEFAULT_CONTENT] ∧ cfg = some DEFAULT_CONTENT)) ∧
        save_new_values old bv pv w = .crash { w with config := cfg, log := w.log ++ pre }) ∨
    (old ≠ clamp_brightness bv ∧ w.home ≠ none ∧ w.mallocOk = true ∧
      w.configWritable = true ∧
      ∃ pre : List Event,
        ((w.config ≠ none ∧ pre = []) ∨
          (w.config = none ∧ w.configCreatable = true ∧
            pre = [Event.configCreate DEFAULT_CONTENT])) ∧
        save_new_values old bv pv w =
          .ret EXIT_SUCCESS
            { w with config := some (clamp_brightness bv),
                     brightness := some (clamp_brightness bv),
                     power := some (clamp_power pv),
                     log := w.log ++ (pre ++ [Event.configWrite (clamp_brightness bv),
                                              Event.brightnessWrite (clamp_brightness bv),
                                              Event.powerWrite (clamp_power pv)]) }) := by
  obtain ⟨home, mo, cr, rd, wr, cfg, br, pw, log⟩ := w
  simp only at hb hp
  subst hb hp
  by_cases h : old = clamp_brightness bv
  · left
    refine ⟨h, ?_⟩
    simp [save_new_values, set_brightness, if_pos h, Step.bind, set_power]
  · right
    cases home <;> cases mo <;> cases cfg <;> cases cr <;> cases wr <;>
      simp [save_new_values, set_brightness, store_brightness_in_confg, get_config_path,
        ensure_file_exists, config_fopen_w, if_neg h, Step.bind, set_power, h] <;>
      exact ⟨_, _, ⟨rfl, rfl⟩, rfl, rfl⟩

/-- The four ways `get_brightness_from_config` can end. -/
theorem get_brightness_from_config_cases (w : World) :
    ((w.home = none ∨ w.mallocOk = false ∨ (w.config = none ∧ w.configCreatable = false)) ∧
      get_brightness_from_config w = .exit EXIT_FAILURE w) ∨
    (w.home ≠ none ∧ w.mallocOk = true ∧ w.configReadable = true ∧
      ∃ c, w.config = some c ∧ get_brightness_from_config w = .ret (fscanf_d c) w) ∨
    (w.home ≠ none ∧ w.mallocOk = true ∧ w.configReadable = true ∧
      w.config = none ∧ w.configCreatable = true ∧
      get_brightness_from_config w =
        .ret DEFAULT_CONTENT
          { w with config := some DEFAULT_CONTENT,
                   log := w.log ++ [Event.configCreate DEFAULT_CONTENT] }) ∨
    (w.home ≠ none ∧ w.mallocOk = true ∧ w.configReadable = false ∧
      ∃ (pre : List Event) (cfg : Option Int),
        ((w.config ≠ none ∧ pre = [] ∧ cfg = w.config) ∨
          (w.config = none ∧ w.configCreatable = true ∧
            pre = [Event.configCreate DEFAULT_CONTENT] ∧ cfg = some DEFAULT_CONTENT)) ∧
        get_brightness_from_config w = .crash { w with config := cfg, log := w.log ++ pre }) := by
  obtain ⟨home, mo, cr, rd, wr, cfg, br, pw, log⟩ := w
  cases home <;> cases mo <;> cases cfg <;> cases cr <;> cases rd <;>
    simp [get_brightness_from_config, get_config_path, ensure_file_exists, config_fopen_w,
      config_fopen_r, Step.bind, fscanf_d_default] <;>
    exact ⟨_, _, ⟨rfl, rfl⟩, rfl, rfl⟩

theorem main_up (prog : String) (w : World) (b p : Int)
    (hb : w.brightness = some b) (hp : w.power = some p) :
    main [prog, "up"] w = save_new_values b (wrapInt32 (b + BRIGHTNESS_STEP)) p w := by
  rw [main_eq prog _ w b p hb hp]; simp [process_arguments, Step.bind]

theorem main_down (prog : String) (w : World) (b p : Int)
    (hb : w.brightness = some b) (hp : w.power = some p) :
    main [prog, "down"] w = save_new_values b (wrapInt32 (b - BRIGHTNESS_STEP)) p w := by
  rw [main_eq prog _ w b p hb hp]; simp [process_arguments, Step.bind]

theorem main_max (prog : String) (w : World) (b p : Int)
    (hb : w.brightness = some b) (hp : w.power = some p) :
    main [prog, "max"] w = save_new_values b BRIGHTNESS_MAX p w := by
  rw [main_eq prog _ w b p hb hp]; simp [process_arguments, Step.bind]

theorem main_min (prog : String) (w : World) (b p : Int)
    (hb : w.brightness = some b) (hp : w.power = some p) :
    main [prog, "min"] w = save_new_values b BRIGHTNESS_MIN p w := by
  rw [main_eq prog _ w b p hb hp]; simp [process_arguments, Step.bind]

theorem main_sync (prog : String) (w : World) (b p : Int)
    (hb : w.brightness = some b) (hp : w.power = some p) :
    main [prog, "sync"] w =
      (get_brightness_from_config w).bind fun bv w1 => save_new_values b bv p w1 := by
  rw [main_eq prog _ w b p hb hp]
  simp only [process_arguments]
  simp
  cases get_brightness_from_config w <;> simp [Step.bind]

theorem main_default (prog : String) (w : World) (b p : Int)
    (hb : w.brightness = some b) (hp : w.power = some p) :
    main [prog, "default"] w = save_new_values b 3 p w := by
  rw [main_eq prog _ w b p hb hp]; simp [process_arguments, Step.bind]

theorem main_on (prog : String) (w : World) (b p : Int)
    (hb : w.brightness = some b) (hp : w.power = some p) :
    main [prog, "on"] w = save_new_values b b POWER_ON w := by
  rw [main_eq prog _ w b p hb hp]; simp [process_arguments, Step.bind]

theorem main_off (prog : String) (w : World) (b p : Int)
    (hb : w.brightness = some b) (hp : w.power = some p) :
    main [prog, "off"] w = save_new_values b b POWER_OFF w := by
  rw [main_eq prog _ w b p hb hp]; simp [process_arguments, Step.bind]

/-- When a device file cannot be opened, `main` returns failure and changes nothing. -/
theorem main_unavailable (argv : List String) (w : World)
    (h : w.brightness = none ∨ w.power = none) :
    main argv w = .ret EXIT_FAILURE w := by
  unfold main usage
  split_ifs
  · rfl
  · rcases h with h | h
    · cases hp : w.power <;> simp [h]
    · simp [h]

theorem wrapInt32_small (x : Int) (hlo : -2147483648 ≤ x) (hhi : x ≤ 2147483647) :
    wrapInt32 x = x := by
  unfold wrapInt32
  omega

theorem clamp_brightness_range (x : Int) :
    1 ≤ clamp_brightness x ∧ clamp_brightness x ≤ 9 := by
  rw [clamp_brightness_eq]; omega

theorem clamp_brightness_id (x : Int) (hlo : 1 ≤ x) (hhi : x ≤ 9) : clamp_brightness x = x := by
  rw [clamp_brightness_eq]; omega

/-- An argument vector of length two whose keyword is not recognised ends in `usage`. -/
theorem main_unrecognised (prog cmd : String) (w : World) (h : cmd ∉ commands) :
    main [prog, cmd] w = .ret EXIT_FAILURE w := by
  simp only [commands, List.mem_cons, List.mem_singleton, List.not_mem_nil, or_false,
    not_or] at h
  obtain ⟨h1, h2, h3, h4, h5, h6, h7, h8⟩ := h
  cases hb : w.brightness with
  | none => exact main_unavailable _ w (Or.inl hb)
  | some b =>
    cases hp : w.power with
    | none => exact main_unavailable _ w (Or.inr hp)
    | some p =>
      rw [main_eq prog cmd w b p hb hp]
      simp [process_arguments, h1, h2, h3, h4, h5, h6, h7, h8, Step.bind, usage]

/-- An argument vector whose length is not two ends in `usage`. -/
theorem main_wrong_count (argv : List String) (w : World) (h : argv.length ≠ 2) :
    main argv w = .ret EXIT_FAILURE w := by
  simp [main, h, usage]

/-- For a recognised keyword the dispatch either exits (only `sync`), or hands a
pair of values to lines 213-217 in the unchanged world, or (only `sync` with the
config file absent) does so after creating the config file, or (only `sync`)
crashes on the unchecked `fopen` of the config file. -/
theorem main_cases (prog cmd : String) (w : World) (b p : Int)
    (hb : w.brightness = some b) (hp : w.power = some p) (hcmd : cmd ∈ commands) :
    (cmd = "sync" ∧
      (w.home = none ∨ w.mallocOk = false ∨ (w.config = none ∧ w.configCreatable = false)) ∧
      process_arguments cmd b p w = .exit EXIT_FAILURE w ∧
      main [prog, cmd] w = .exit EXIT_FAILURE w) ∨
    (∃ bv pv,
      (cmd = "sync" → w.home ≠ none ∧ w.mallocOk = true ∧ w.configReadable = true ∧
        ∃ c, w.config = some c ∧ bv = fscanf_d c) ∧
      (cmd ∈ brightness_commands → pv = p) ∧
      process_arguments cmd b p w = .ret (some (bv, pv)) w ∧
      main [prog, cmd] w = save_new_values b bv pv w) ∨
    (cmd = "sync" ∧ w.home ≠ none ∧ w.mallocOk = true ∧ w.configReadable = true ∧
      w.config = none ∧ w.configCreatable = true ∧
      process_arguments cmd b p w =
        .ret (some (DEFAULT_CONTENT, p))
          { w with config := some DEFAULT_CONTENT,
                   log := w.log ++ [Event.configCreate DEFAULT_CONTENT] } ∧
      main [prog, cmd] w =
        save_new_values b DEFAULT_CONTENT p
          { w with config := some DEFAULT_CONTENT,
                   log := w.log ++ [Event.configCreate DEFAULT_CONTENT] }) ∨
    (cmd = "sync" ∧ w.home ≠ none ∧ w.mallocOk = true ∧ w.configReadable = false ∧
      ∃ (pre : List Event) (cfg : Option Int),
        ((w.config ≠ none ∧ pre = [] ∧ cfg = w.config) ∨
          (w.config = none ∧ w.configCreatable = true ∧
            pre = [Event.configCreate DEFAULT_CONTENT] ∧ cfg = some DEFAULT_CONTENT)) ∧
        process_arguments cmd b p w = .crash { w with config := cfg, log := w.log ++ pre } ∧
        main [prog, cmd] w = .crash { w with config := cfg, log := w.log ++ pre }) := by
  simp only [commands, List.mem_cons, List.mem_singleton, List.not_mem_nil, or_false] at hcmd
  rcases hcmd with rfl | rfl | rfl | rfl | rfl | rfl | rfl | rfl
  · right; left
    exact ⟨_, _, fun h => absurd h (by decide), by simp [brightness_commands],
      by simp [process_arguments], main_up prog w b p hb hp⟩
  · right; left
    exact ⟨_, _, fun h => absurd h (by decide), by simp [brightness_commands],
      by simp [process_arguments], main_down prog w b p hb hp⟩
  · right; left
    exact ⟨_, _, fun h => absurd h (by decide), by simp [brightness_commands],
      by simp [process_arguments], main_max prog w b p hb hp⟩
  · right; left
    exact ⟨_, _, fun h => absurd h (by decide), by simp [brightness_commands],
      by simp [process_arguments], main_min prog w b p hb hp⟩
  · rw [main_sync prog w b p hb hp]
    have hpa : process_arguments "sync" b p w =
        (get_brightness_from_config w).bind fun bv w1 => .ret (some (bv, p)) w1 := by
      simp [process_arguments]
    rw [hpa]
    rcases get_brightness_from_config_cases w with
      ⟨hx, e⟩ | ⟨hh, hm, hr, c, hc, e⟩ | ⟨hh, hm, hr, hc, hcr, e⟩ | ⟨hh, hm, hr, pre, cfg, hpre, e⟩
    · left; rw [e]; exact ⟨rfl, hx, by simp [Step.bind], by simp [Step.bind]⟩
    · right; left; rw [e]
      exact ⟨fscanf_d c, p, fun _ => ⟨hh, hm, hr, c, hc, rfl⟩, fun _ => rfl,
        by simp [Step.bind], by simp [Step.bind]⟩
    · right; right; left; rw [e]
      exact ⟨rfl, hh, hm, hr, hc, hcr, by simp [Step.bind], by simp [Step.bind]⟩
    · right; right; right; rw [e]
      exact ⟨rfl, hh, hm, hr, pre, cfg, hpre, by simp [Step.bind], by simp [Step.bind]⟩
  · right; left
    exact ⟨_, _, fun h => absurd h (by decide), by simp [brightness_commands],
      by simp [process_arguments], main_default prog w b p hb hp⟩
  · right; left
    exact ⟨_, _, fun h => absurd h (by decide), by simp [brightness_commands],
      by simp [process_arguments], main_on prog w b p hb hp⟩
  · right; left
    exact ⟨_, _, fun h => absurd h (by decide), by simp [brightness_commands],
      by simp [process_arguments], main_off prog w b p hb hp⟩

/-- A run of lines 213-217 in the world left by `sync` after it created the config
file never exits: the config helpers find `HOME`, a buffer and an existing file. -/
theorem save_after_create_cases (b bv p : Int) (w : World)
    (hb : w.brightness = some b) (hp : w.power = some p)
    (hh : w.home ≠ none) (hm : w.mallocOk = true) :
    (b = clamp_brightness bv ∧
      save_new_values b bv p
          { w with config := some DEFAULT_CONTENT,
                   log := w.log ++ [Event.configCreate DEFAULT_CONTENT] } =
        .ret EXIT_SUCCESS
          { w with config := some DEFAULT_CONTENT, power := some (clamp_power p),
                   log := w.log ++ [Event.configCreate DEFAULT_CONTENT,
                                    Event.powerWrite (clamp_power p)] }) ∨
    (b ≠ clamp_brightness bv ∧ w.configWritable = false ∧
      save_new_values b bv p
          { w with config := some DEFAULT_CONTENT,
                   log := w.log ++ [Event.configCreate DEFAULT_CONTENT] } =
        .crash { w with config := some DEFAULT_CONTENT,
                        log := w.log ++ [Event.configCreate DEFAULT_CONTENT] }) ∨
    (b ≠ clamp_brightness bv ∧ w.configWritable = true ∧
      save_new_values b bv p
          { w with config := some DEFAULT_CONTENT,
                   log := w.log ++ [Event.configCreate DEFAULT_CONTENT] } =
        .ret EXIT_SUCCESS
          { w with config := some (clamp_brightness bv),
                   brightness := some (clamp_brightness bv),
                   power := some (clamp_power p),
                   log := w.log ++ [Event.configCreate DEFAULT_CONTENT,
                                    Event.configWrite (clamp_brightness bv),
                                    Event.brightnessWrite (clamp_brightness bv),
                                    Event.powerWrite (clamp_power p)] }) := by
  obtain ⟨home, mo, cr, rd, wr, cfg, br, pw, log⟩ := w
  simp only at hb hp hh hm
  subst hb hp hm
  by_cases h : b = clamp_brightness bv
  · left
    refine ⟨h, ?_⟩
    simp [save_new_values, set_brightness, if_pos h, Step.bind, set_power]
  · right
    cases home <;> cases wr <;>
      simp [save_new_values, set_brightness, store_brightness_in_confg, get_config_path,
        ensure_file_exists, config_fopen_w, if_neg h, Step.bind, set_power, h] at hh ⊢

/-- Every run of `main` has one of five shapes: a failure that leaves the world
unchanged (returned or exited), a crash before any write other than the creation
of the config file, a success with no brightness change, or a success with the
full write sequence. -/
theorem main_shapes (argv : List String) (w : World) :
    main argv w = .ret EXIT_FAILURE w ∨
    main argv w = .exit EXIT_FAILURE w ∨
    (∃ pre cfg, ((pre = [] ∧ cfg = w.config) ∨
        (pre = [Event.configCreate DEFAULT_CONTENT] ∧ cfg = some DEFAULT_CONTENT)) ∧
      main argv w = .crash { w with config := cfg, log := w.log ++ pre }) ∨
    (∃ pre q cfg, ((pre = [] ∧ cfg = w.config) ∨
        (pre = [Event.configCreate DEFAULT_CONTENT] ∧ cfg = some DEFAULT_CONTENT)) ∧
      main argv w =
        .ret EXIT_SUCCESS { w with config := cfg, power := some q,
                                   log := w.log ++ (pre ++ [Event.powerWrite q]) }) ∨
    (∃ pre c q, (pre = [] ∨ pre = [Event.configCreate DEFAULT_CONTENT]) ∧ 1 ≤ c ∧ c ≤ 9 ∧
      main argv w =
        .ret EXIT_SUCCESS
          { w with config := some c, brightness := some c, power := some q,
                   log := w.log ++ (pre ++ [Event.configWrite c, Event.brightnessWrite c,
                                            Event.powerWrite q]) }) := by
  by_cases hlen : argv.length = 2
  swap
  · exact Or.inl (main_wrong_count argv w hlen)
  obtain ⟨prog, cmd, rfl⟩ : ∃ prog cmd, argv = [prog, cmd] := by
    match argv, hlen with
    | [a, c], _ => exact ⟨a, c, rfl⟩
  by_cases hcmd : cmd ∈ commands
  swap
  · exact Or.inl (main_unrecognised prog cmd w hcmd)
  by_cases hb0 : w.brightness = none
  · exact Or.inl (main_unavailable _ w (Or.inl hb0))
  by_cases hp0 : w.power = none
  · exact Or.inl (main_unavailable _ w (Or.inr hp0))
  obtain ⟨b, hb⟩ := Option.ne_none_iff_exists'.mp hb0
  obtain ⟨p, hp⟩ := Option.ne_none_iff_exists'.mp hp0
  rcases main_cases prog cmd w b p hb hp hcmd with
    ⟨_, _, _, e⟩ | ⟨bv, pv, _, _, _, e⟩ | ⟨_, hh, hm, _, hc, hcr, _, e⟩ |
    ⟨_, _, _, _, pre, cfg, hpre, _, e⟩
  · exact Or.inr (Or.inl e)
  · rw [e]
    rcases save_new_values_cases b bv pv b p w hb hp with
      ⟨_, e1⟩ | ⟨_, _, e1⟩ | ⟨_, _, _, _, pre, cfg, hpre, e1⟩ | ⟨_, _, _, _, pre, hpre, e1⟩
    · right; right; right; left
      exact ⟨[], clamp_power pv, w.config, Or.inl ⟨rfl, rfl⟩, by rw [e1]; simp [hb]⟩
    · exact Or.inr (Or.inl e1)
    · right; right; left
      refine ⟨pre, cfg, ?_, e1⟩
      rcases hpre with ⟨_, h1, h2⟩ | ⟨_, _, h1, h2⟩
      · exact Or.inl ⟨h1, h2⟩
      · exact Or.inr ⟨h1, h2⟩
    · right; right; right; right
      refine ⟨pre, clamp_brightness bv, clamp_power pv, ?_, (clamp_brightness_range bv).1,
        (clamp_brightness_range bv).2, e1⟩
      rcases hpre with ⟨_, h⟩ | ⟨_, _, h⟩
      · exact Or.inl h
      · exact Or.inr h
  · rw [e]
    rcases save_after_create_cases b DEFAULT_CONTENT p w hb hp hh hm with
      ⟨_, e1⟩ | ⟨_, _, e1⟩ | ⟨_, _, e1⟩
    · right; right; right; left
      exact ⟨[Event.configCreate DEFAULT_CONTENT], clamp_power p, some DEFAULT_CONTENT,
        Or.inr ⟨rfl, rfl⟩, by rw [e1]; simp⟩
    · right; right; left
      exact ⟨[Event.configCreate DEFAULT_CONTENT], some DEFAULT_CONTENT,
        Or.inr ⟨rfl, rfl⟩, e1⟩
    · right; right; right; right
      exact ⟨[Event.configCreate DEFAULT_CONTENT], clamp_brightness DEFAULT_CONTENT,
        clamp_power p, Or.inr rfl, (clamp_brightness_range _).1,
        (clamp_brightness_range _).2, by rw [e1]; simp⟩
  · right; right; left
    refine ⟨pre, cfg, ?_, e⟩
    rcases hpre with ⟨_, h1, h2⟩ | ⟨_, _, h1, h2⟩
    · exact Or.inl ⟨h1, h2⟩
    · exact Or.inr ⟨h1, h2⟩

/-- Claim C1. Starting from a device brightness `b` with `1 ≤ b ≤ 9`, a successful
invocation with `up` leaves the device brightness at `min (b+1) 9`, and a successful
invocation with `down` leaves it at `max (b-1) 1`, whatever the power value and the
config file state. -/
theorem up_down_brightness (prog : String) (w : World) (b : Int)
    (hw : w.brightness = some b) (hlo : 1 ≤ b) (hhi : b ≤ 9) :
    ((main [prog, "up"] w).status = some EXIT_SUCCESS →
        (main [prog, "up"] w).world.brightness = some (min (b + 1) 9)) ∧
    ((main [prog, "down"] w).status = some EXIT_SUCCESS →
        (main [prog, "down"] w).world.brightness = some (max (b - 1) 1)) := by
  cases hp : w.power with
  | none =>
    simp [main_unavailable _ w (Or.inr hp), Step.status, EXIT_FAILURE, EXIT_SUCCESS]
  | some p =>
    have hu : clamp_brightness (wrapInt32 (b + BRIGHTNESS_STEP)) = min (b + 1) 9 := by
      rw [clamp_brightness_eq, wrapInt32_small] <;> unfold BRIGHTNESS_STEP <;> omega
    have hd : clamp_brightness (wrapInt32 (b - BRIGHTNESS_STEP)) = max (b - 1) 1 := by
      rw [clamp_brightness_eq, wrapInt32_small] <;> unfold BRIGHTNESS_STEP <;> omega
    rw [main_up prog w b p hw hp, main_down prog w b p hw hp]
    constructor
    · rcases save_new_values_cases b (wrapInt32 (b + BRIGHTNESS_STEP)) p b p w hw hp with
        ⟨h, e⟩ | ⟨_, _, e⟩ | ⟨_, _, _, _, _, _, _, e⟩ | ⟨_, _, _, _, pre, _, e⟩
      · rw [e, ← hu, ← h]; simp [Step.world, hw]
      · rw [e]; simp [Step.status, EXIT_FAILURE, EXIT_SUCCESS]
      · rw [e]; simp [Step.status]
      · rw [e, hu]; simp [Step.world]
    · rcases save_new_values_cases b (wrapInt32 (b - BRIGHTNESS_STEP)) p b p w hw hp with
        ⟨h, e⟩ | ⟨_, _, e⟩ | ⟨_, _, _, _, _, _, _, e⟩ | ⟨_, _, _, _, pre, _, e⟩
      · rw [e, ← hd, ← h]; simp [Step.world, hw]
      · rw [e]; simp [Step.status, EXIT_FAILURE, EXIT_SUCCESS]
      · rw [e]; simp [Step.status]
      · rw [e, hd]; simp [Step.world]

/-- Witness for C1 (end-to-end scenario 1): brightness 5, `up` gives 6 and the config
file then holds 6; `down` gives 4. -/
theorem up_down_brightness_witness :
    sampleWorld.brightness = some 5 ∧ (1 : Int) ≤ 5 ∧ (5 : Int) ≤ 9 ∧
    (main ["rpi-backlight", "up"] sampleWorld).status = some EXIT_SUCCESS ∧
    (main ["rpi-backlight", "up"] sampleWorld).world.brightness = some (min (5 + 1) 9) ∧
    (main ["rpi-backlight", "up"] sampleWorld).world.config = some 6 ∧
    (main ["rpi-backlight", "down"] sampleWorld).status = some EXIT_SUCCESS ∧
    (main ["rpi-backlight", "down"] sampleWorld).world.brightness = some (max (5 - 1) 1) :=
  ⟨rfl, by decide, by decide, by decide,
   (up_down_brightness "rpi-backlight" sampleWorld 5 rfl (by decide) (by decide)).1 (by decide),
   by decide, by decide,
   (up_down_brightness "rpi-backlight" sampleWorld 5 rfl (by decide) (by decide)).2 (by decide)⟩

/-- Claim C2. From every starting state, a successful invocation leaves the device
brightness at exactly 9 for `max`, exactly 1 for `min` and exactly 3 for `default`. -/
theorem max_min_default_brightness (prog : String) (w : World) :
    ((main [prog, "max"] w).status = some EXIT_SUCCESS →
        (main [prog, "max"] w).world.brightness = some 9) ∧
    ((main [prog, "min"] w).status = some EXIT_SUCCESS →
        (main [prog, "min"] w).world.brightness = some 1) ∧
    ((main [prog, "default"] w).status = some EXIT_SUCCESS →
        (main [prog, "default"] w).world.brightness = some 3) := by
  have key : ∀ (b p bv c : Int), w.brightness = some b → w.power = some p →
      clamp_brightness bv = c →
      (save_new_values b bv p w).status = some EXIT_SUCCESS →
        (save_new_values b bv p w).world.brightness = some c := by
    intro b p bv c hb hp hc
    rcases save_new_values_cases b bv p b p w hb hp with
      ⟨h, e⟩ | ⟨_, _, e⟩ | ⟨_, _, _, _, _, _, _, e⟩ | ⟨_, _, _, _, pre, _, e⟩
    · rw [e, ← hc, ← h]; simp [Step.world, hb]
    · rw [e]; simp [Step.status, EXIT_FAILURE, EXIT_SUCCESS]
    · rw [e]; simp [Step.status]
    · rw [e, hc]; simp [Step.world]
  cases hb : w.brightness with
  | none => simp [main_unavailable _ w (Or.inl hb), Step.status, EXIT_FAILURE, EXIT_SUCCESS]
  | some b =>
    cases hp : w.power with
    | none => simp [main_unavailable _ w (Or.inr hp), Step.status, EXIT_FAILURE, EXIT_SUCCESS]
    | some p =>
      rw [main_max prog w b p hb hp, main_min prog w b p hb hp, main_default prog w b p hb hp]
      exact ⟨key b p _ 9 hb hp (by decide), key b p _ 1 hb hp (by decide),
        key b p _ 3 hb hp (by decide)⟩

/-- Witness for C2: from brightness 5 the three commands succeed and give 9, 1, 3. -/
theorem max_min_default_brightness_witness :
    ((main ["rpi-backlight", "max"] sampleWorld).status = some EXIT_SUCCESS ∧
      (main ["rpi-backlight", "max"] sampleWorld).world.brightness = some 9) ∧
    ((main ["rpi-backlight", "min"] sampleWorld).status = some EXIT_SUCCESS ∧
      (main ["rpi-backlight", "min"] sampleWorld).world.brightness = some 1) ∧
    ((main ["rpi-backlight", "default"] sampleWorld).status = some EXIT_SUCCESS ∧
      (main ["rpi-backlight", "default"] sampleWorld).world.brightness = some 3) :=
  ⟨⟨by decide, (max_min_default_brightness "rpi-backlight" sampleWorld).1 (by decide)⟩,
   ⟨by decide, (max_min_default_brightness "rpi-backlight" sampleWorld).2.1 (by decide)⟩,
   ⟨by decide, (max_min_default_brightness "rpi-backlight" sampleWorld).2.2 (by decide)⟩⟩

/-- Claim C3 as stated fails: with the config file holding 2147483648, which does not
fit the `int` that `fscanf "%d"` fills, a successful `sync` sets the device brightness
to 1, whereas the stored integer clamped to [1,9] is 9. -/
theorem sync_brightness_counterexample :
    overflowWorld.config = some 2147483648 ∧
    (main ["rpi-backlight", "sync"] overflowWorld).status = some EXIT_SUCCESS ∧
    (main ["rpi-backlight", "sync"] overflowWorld).world.brightness = some 1 ∧
    (main ["rpi-backlight", "sync"] overflowWorld).world.log =
      [Event.configWrite 1, Event.brightnessWrite 1, Event.powerWrite 0] ∧
    max (1 : Int) (min 2147483648 9) = 9 ∧
    ¬ (∀ (prog : String) (w : World),
        (main [prog, "sync"] w).status = some EXIT_SUCCESS →
        ∀ c, w.config = some c →
          (main [prog, "sync"] w).world.brightness = some (max 1 (min c 9))) := by
  refine ⟨rfl, by decide, by decide, by decide, by decide, ?_⟩
  intro h
  have h1 := h "rpi-backlight" overflowWorld (by decide) 2147483648 rfl
  exact absurd h1 (by decide)

/-- Claim C3, amended. After a successful invocation with `sync`, the device brightness
is the integer the config file held at the start, clamped to [1,9], provided that
integer fits a 32-bit `int`; and when the config file was absent at the start, it has
been created with content 3 (the creation is the first write of the invocation) and
the device brightness is 3. -/
theorem sync_brightness (prog : String) (w : World)
    (hs : (main [prog, "sync"] w).status = some EXIT_SUCCESS) :
    (∀ c, w.config = some c → -2147483648 ≤ c → c ≤ 2147483647 →
        (main [prog, "sync"] w).world.brightness = some (max 1 (min c 9))) ∧
    (w.config = none →
        (∃ rest, (main [prog, "sync"] w).world.log =
            w.log ++ Event.configCreate 3 :: rest) ∧
        (main [prog, "sync"] w).world.config = some 3 ∧
        (main [prog, "sync"] w).world.brightness = some 3) := by
  by_cases hb0 : w.brightness = none
  · rw [main_unavailable _ w (Or.inl hb0)] at hs
    simp [Step.status, EXIT_FAILURE, EXIT_SUCCESS] at hs
  by_cases hp0 : w.power = none
  · rw [main_unavailable _ w (Or.inr hp0)] at hs
    simp [Step.status, EXIT_FAILURE, EXIT_SUCCESS] at hs
  obtain ⟨b, hb⟩ := Option.ne_none_iff_exists'.mp hb0
  obtain ⟨p, hp⟩ := Option.ne_none_iff_exists'.mp hp0
  rcases main_cases prog "sync" w b p hb hp (by decide) with
    ⟨_, _, _, e⟩ | ⟨bv, pv, hsync, _, _, e⟩ | ⟨_, hh, hm, _, hc, hcr, _, e⟩ |
    ⟨_, _, _, _, _, _, _, _, e⟩
  · rw [e] at hs
    simp [Step.status, EXIT_FAILURE, EXIT_SUCCESS] at hs
  · obtain ⟨_, _, _, c0, hcfg, hbv⟩ := hsync rfl
    rw [e] at hs ⊢
    constructor
    swap
    · intro hn; rw [hn] at hcfg; cases hcfg
    intro c hc hlo hhi
    rw [hcfg] at hc
    cases hc
    rw [fscanf_d_small c0 hlo hhi] at hbv
    subst hbv
    rw [← clamp_brightness_eq]
    rcases save_new_values_cases b bv pv b p w hb hp with
      ⟨h, e1⟩ | ⟨_, _, e1⟩ | ⟨_, _, _, _, _, _, _, e1⟩ | ⟨_, _, _, _, pre, _, e1⟩
    · rw [e1, ← h]; simp [Step.world, hb]
    · rw [e1] at hs; simp [Step.status, EXIT_FAILURE, EXIT_SUCCESS] at hs
    · rw [e1] at hs; simp [Step.status] at hs
    · rw [e1]; simp [Step.world]
  · rw [e] at hs ⊢
    constructor
    · intro c hc'; rw [hc] at hc'; cases hc'
    intro _
    have h3 : clamp_brightness DEFAULT_CONTENT = 3 := by decide
    rcases save_after_create_cases b DEFAULT_CONTENT p w hb hp hh hm with
      ⟨h, e1⟩ | ⟨_, _, e1⟩ | ⟨_, _, e1⟩
    · rw [e1]
      rw [h3] at h
      exact ⟨⟨[Event.powerWrite (clamp_power p)], by simp [Step.world, DEFAULT_CONTENT]⟩,
        by simp [Step.world, DEFAULT_CONTENT], by simp [Step.world, hb, h]⟩
    · rw [e1] at hs; simp [Step.status] at hs
    · rw [e1, h3]
      exact ⟨⟨[Event.configWrite 3, Event.brightnessWrite 3,
          Event.powerWrite (clamp_power p)], by simp [Step.world, DEFAULT_CONTENT]⟩,
        by simp [Step.world], by simp [Step.world]⟩
  · rw [e] at hs; simp [Step.status] at hs

/-- Witness for the amended C3 (end-to-end scenario 3): config file absent, device
brightness 5; `sync` succeeds, creates the config file with 3 and sets the device
brightness to 3. With the config file holding 4 the device brightness becomes 4. -/
theorem sync_brightness_witness :
    (main ["rpi-backlight", "sync"] { sampleWorld with config := none }).status
      = some EXIT_SUCCESS ∧
    (main ["rpi-backlight", "sync"] { sampleWorld with config := none }).world.config
      = some 3 ∧
    (main ["rpi-backlight", "sync"] { sampleWorld with config := none }).world.brightness
      = some 3 ∧
    (main ["rpi-backlight", "sync"] sampleWorld).status = some EXIT_SUCCESS ∧
    sampleWorld.config = some 4 ∧ (-2147483648 : Int) ≤ 4 ∧ (4 : Int) ≤ 2147483647 ∧
    (main ["rpi-backlight", "sync"] sampleWorld).world.brightness = some (max 1 (min 4 9)) :=
  ⟨by decide,
   ((sync_brightness "rpi-backlight" { sampleWorld with config := none } (by decide)).2 rfl).2.1,
   ((sync_brightness "rpi-backlight" { sampleWorld with config := none } (by decide)).2 rfl).2.2,
   by decide, rfl, by decide, by decide,
   (sync_brightness "rpi-backlight" sampleWorld (by decide)).1 4 rfl (by decide) (by decide)⟩

/-- Claim C4 as stated fails: `sync` with the config file absent and device brightness 3
computes the clamped new brightness 3, equal to the brightness read at the start, and
yet the config file is created. -/
theorem no_change_no_writes_counterexample :
    freshWorld.brightness = some 3 ∧ freshWorld.config = none ∧
    process_arguments "sync" 3 0 freshWorld =
      .ret (some (3, 0)) { freshWorld with config := some 3, log := [Event.configCreate 3] } ∧
    clamp_brightness 3 = 3 ∧
    (main ["rpi-backlight", "sync"] freshWorld).world.log =
      [Event.configCreate 3, Event.powerWrite 0] ∧
    (main ["rpi-backlight", "sync"] freshWorld).world.config = some 3 ∧
    ¬ (∀ (prog cmd : String) (w : World) (b p bv pv : Int) (w1 : World),
        cmd ∈ commands → w.brightness = some b → w.power = some p →
        process_arguments cmd b p w = .ret (some (bv, pv)) w1 →
        clamp_brightness bv = b →
        ∀ evs, (main [prog, cmd] w).world.log = w.log ++ evs →
          ∀ e ∈ evs, e.isConfig = false ∧ e.isBrightness = false) := by
  refine ⟨rfl, rfl, by decide, by decide, by decide, by decide, ?_⟩
  intro h
  have h1 := h "rpi-backlight" "sync" freshWorld 3 0 3 0
    { freshWorld with config := some 3, log := [Event.configCreate 3] }
    (by decide) rfl rfl (by decide) (by decide)
    [Event.configCreate 3, Event.powerWrite 0] (by decide)
    (Event.configCreate 3) (by simp)
  simp [Event.isConfig] at h1

/-- Claim C4, amended. For each of the eight commands, when the clamped new brightness
equals the brightness read at the start, the device brightness file is not written and
the only write besides the power write is, for `sync` with the config file absent, the
creation of the config file with the default content; otherwise the config file is
not written. -/
theorem no_change_no_brightness_write (prog cmd : String) (w : World) (b p bv pv : Int)
    (w1 : World) (hcmd : cmd ∈ commands)
    (hb : w.brightness = some b) (hp : w.power = some p)
    (hpa : process_arguments cmd b p w = .ret (some (bv, pv)) w1)
    (heq : clamp_brightness bv = b) :
    (main [prog, cmd] w).world.brightness = w.brightness ∧
    ((cmd = "sync" ∧ w.config = none) →
      (main [prog, cmd] w).world.log =
          w.log ++ [Event.configCreate 3, Event.powerWrite (clamp_power pv)] ∧
        (main [prog, cmd] w).world.config = some 3) ∧
    (¬ (cmd = "sync" ∧ w.config = none) →
      (main [prog, cmd] w).world.log = w.log ++ [Event.powerWrite (clamp_power pv)] ∧
        (main [prog, cmd] w).world.config = w.config) := by
  rcases main_cases prog cmd w b p hb hp hcmd with
    ⟨_, _, e0, _⟩ | ⟨bv1, pv1, hsync, _, e0, e⟩ | ⟨hc0, hh, hm, _, hc, hcr, e0, e⟩ |
    ⟨_, _, _, _, _, _, _, e0, _⟩
  · rw [e0] at hpa; cases hpa
  · rw [e0] at hpa
    cases hpa
    have hne : ¬ (cmd = "sync" ∧ w.config = none) := by
      rintro ⟨h1, h2⟩
      obtain ⟨_, _, _, c, hcfg, _⟩ := hsync h1
      rw [hcfg] at h2
      cases h2
    rw [e]
    rcases save_new_values_cases b bv pv b p w hb hp with
      ⟨_, e1⟩ | ⟨h, _, _⟩ | ⟨h, _⟩ | ⟨h, _⟩
    · rw [e1]
      exact ⟨by simp [Step.world], fun hx => absurd hx hne, fun _ => by simp [Step.world]⟩
    · exact absurd heq.symm h
    · exact absurd heq.symm h
    · exact absurd heq.symm h
  · rw [e0] at hpa
    cases hpa
    rw [e]
    rcases save_after_create_cases b DEFAULT_CONTENT p w hb hp hh hm with
      ⟨_, e1⟩ | ⟨h, _, _⟩ | ⟨h, _, _⟩
    · rw [e1]
      exact ⟨by simp [Step.world], fun _ => by simp [Step.world, DEFAULT_CONTENT],
        fun hx => absurd ⟨hc0, hc⟩ hx⟩
    · exact absurd heq.symm h
    · exact absurd heq.symm h
  · rw [e0] at hpa; cases hpa

/-- Witness for the amended C4: `max` at brightness 9 writes only the power file, and
`sync` at brightness 3 with the config file absent only creates the config file. -/
theorem no_change_no_brightness_write_witness :
    "sync" ∈ commands ∧ freshWorld.brightness = some 3 ∧ freshWorld.power = some 0 ∧
    process_arguments "sync" 3 0 freshWorld =
      .ret (some (3, 0)) { freshWorld with config := some 3, log := [Event.configCreate 3] } ∧
    clamp_brightness 3 = 3 ∧
    (main ["rpi-backlight", "sync"] freshWorld).world.brightness = freshWorld.brightness ∧
    (main ["rpi-backlight", "sync"] freshWorld).world.log
      = freshWorld.log ++ [Event.configCreate 3, Event.powerWrite (clamp_power 0)] ∧
    (main ["rpi-backlight", "max"] { sampleWorld with brightness := some 9 }).world.log
      = sampleWorld.log ++ [Event.powerWrite (clamp_power 0)] :=
  ⟨by decide, rfl, rfl, by decide, by decide,
   (no_change_no_brightness_write "rpi-backlight" "sync" freshWorld 3 0 3 0
      { freshWorld with config := some 3, log := [Event.configCreate 3] }
      (by decide) rfl rfl (by decide) (by decide)).1,
   ((no_change_no_brightness_write "rpi-backlight" "sync" freshWorld 3 0 3 0
      { freshWorld with config := some 3, log := [Event.configCreate 3] }
      (by decide) rfl rfl (by decide) (by decide)).2.1 (by decide)).1,
   ((no_change_no_brightness_write "rpi-backlight" "max"
      { sampleWorld with brightness := some 9 } 9 0 9 0
      { sampleWorld with brightness := some 9 }
      (by decide) rfl rfl (by decide) (by decide)).2.2 (by decide)).1⟩

/-- Claim C5. A successful invocation with `on` leaves the power file holding 0 and
with `off` leaves it holding 1, whatever the prior power and brightness; and every
successful invocation with one of the eight commands performs exactly one write to
the power file. -/
theorem power_written_once (prog : String) (w : World) :
    ((main [prog, "on"] w).status = some EXIT_SUCCESS →
        (main [prog, "on"] w).world.power = some 0) ∧
    ((main [prog, "off"] w).status = some EXIT_SUCCESS →
        (main [prog, "off"] w).world.power = some 1) ∧
    (∀ cmd ∈ commands, (main [prog, cmd] w).status = some EXIT_SUCCESS →
        ∃ evs, (main [prog, cmd] w).world.log = w.log ++ evs ∧
          evs.countP Event.isPower = 1) := by
  have key : ∀ (b p pv q : Int), w.brightness = some b → w.power = some p →
      clamp_power pv = q →
      (save_new_values b b pv w).status = some EXIT_SUCCESS →
        (save_new_values b b pv w).world.power = some q := by
    intro b p pv q hb hp hq
    rcases save_new_values_cases b b pv b p w hb hp with
      ⟨_, e⟩ | ⟨_, _, e⟩ | ⟨_, _, _, _, _, _, _, e⟩ | ⟨_, _, _, _, pre, _, e⟩
    · rw [e, hq]; simp [Step.world]
    · rw [e]; simp [Step.status, EXIT_FAILURE, EXIT_SUCCESS]
    · rw [e]; simp [Step.status]
    · rw [e, hq]; simp [Step.world]
  refine ⟨?_, ?_, ?_⟩
  · cases hb : w.brightness with
    | none => simp [main_unavailable _ w (Or.inl hb), Step.status, EXIT_FAILURE, EXIT_SUCCESS]
    | some b =>
      cases hp : w.power with
      | none =>
        simp [main_unavailable _ w (Or.inr hp), Step.status, EXIT_FAILURE, EXIT_SUCCESS]
      | some p =>
        rw [main_on prog w b p hb hp]
        exact key b p _ 0 hb hp (by decide)
  · cases hb : w.brightness with
    | none => simp [main_unavailable _ w (Or.inl hb), Step.status, EXIT_FAILURE, EXIT_SUCCESS]
    | some b =>
      cases hp : w.power with
      | none =>
        simp [main_unavailable _ w (Or.inr hp), Step.status, EXIT_FAILURE, EXIT_SUCCESS]
      | some p =>
        rw [main_off prog w b p hb hp]
        exact key b p _ 1 hb hp (by decide)
  · intro cmd _ hs
    rcases main_shapes [prog, cmd] w with
      e | e | ⟨_, _, _, e⟩ | ⟨pre, q, cfg, hpre, e⟩ | ⟨pre, c, q, hpre, _, _, e⟩
    · rw [e] at hs; simp [Step.status, EXIT_FAILURE, EXIT_SUCCESS] at hs
    · rw [e] at hs; simp [Step.status, EXIT_FAILURE, EXIT_SUCCESS] at hs
    · rw [e] at hs; simp [Step.status] at hs
    · rw [e]
      refine ⟨pre ++ [Event.powerWrite q], rfl, ?_⟩
      rcases hpre with ⟨rfl, _⟩ | ⟨rfl, _⟩ <;> simp [List.countP_cons, Event.isPower]
    · rw [e]
      refine ⟨pre ++ [Event.configWrite c, Event.brightnessWrite c, Event.powerWrite q], rfl, ?_⟩
      rcases hpre with rfl | rfl <;> simp [List.countP_cons, Event.isPower]

/-- Witness for C5 (end-to-end scenario 4): with power 0, `off` succeeds and leaves
the power file holding 1 after one power write; `on` leaves it holding 0. -/
theorem power_written_once_witness :
    (main ["rpi-backlight", "off"] sampleWorld).status = some EXIT_SUCCESS ∧
    (main ["rpi-backlight", "off"] sampleWorld).world.power = some 1 ∧
    (main ["rpi-backlight", "on"] sampleWorld).status = some EXIT_SUCCESS ∧
    (main ["rpi-backlight", "on"] sampleWorld).world.power = some 0 ∧
    (main ["rpi-backlight", "up"] sampleWorld).status = some EXIT_SUCCESS ∧
    List.countP Event.isPower (main ["rpi-backlight", "up"] sampleWorld).world.log = 1 :=
  ⟨by decide,
   (power_written_once "rpi-backlight" sampleWorld).2.1 (by decide),
   by decide,
   (power_written_once "rpi-backlight" sampleWorld).1 (by decide),
   by decide,
   by decide⟩

/-- Claim C6. For every argument vector and every starting state (any integers in the
device brightness file and the config file), every value written to the device
brightness file or to the config file lies in [1, 9]. -/
theorem written_brightness_in_range (argv : List String) (w : World) :
    ∃ evs, (main argv w).world.log = w.log ++ evs ∧
      ∀ e ∈ evs, (e.isBrightness = true ∨ e.isConfig = true) →
        1 ≤ e.value ∧ e.value ≤ 9 := by
  rcases main_shapes argv w with
    e | e | ⟨pre, cfg, hpre, e⟩ | ⟨pre, q, cfg, hpre, e⟩ | ⟨pre, c, q, hpre, h1, h9, e⟩
  · exact ⟨[], by rw [e]; simp [Step.world], by simp⟩
  · exact ⟨[], by rw [e]; simp [Step.world], by simp⟩
  · refine ⟨pre, by rw [e]; rfl, ?_⟩
    rcases hpre with ⟨rfl, _⟩ | ⟨rfl, _⟩ <;>
      simp [Event.isBrightness, Event.isConfig, Event.value, DEFAULT_CONTENT]
  · refine ⟨pre ++ [Event.powerWrite q], by rw [e]; rfl, ?_⟩
    rcases hpre with ⟨rfl, _⟩ | ⟨rfl, _⟩ <;>
      simp [Event.isBrightness, Event.isConfig, Event.value, DEFAULT_CONTENT]
  · refine ⟨pre ++ [Event.configWrite c, Event.brightnessWrite c, Event.powerWrite q],
      by rw [e]; rfl, ?_⟩
    rcases hpre with rfl | rfl <;>
      simp [Event.isBrightness, Event.isConfig, Event.value, DEFAULT_CONTENT, h1, h9]

/-- Claim C7 as stated fails: with device brightness 0 (outside [1,9]) a successful
`off` rewrites both the config file and the device brightness file with 1. -/
theorem on_off_frame_counterexample :
    darkWorld.brightness = some 0 ∧ darkWorld.config = some 4 ∧
    (main ["rpi-backlight", "off"] darkWorld).status = some EXIT_SUCCESS ∧
    (main ["rpi-backlight", "off"] darkWorld).world.brightness = some 1 ∧
    (main ["rpi-backlight", "off"] darkWorld).world.config = some 1 ∧
    (main ["rpi-backlight", "off"] darkWorld).world.log =
      [Event.configWrite 1, Event.brightnessWrite 1, Event.powerWrite 1] ∧
    ¬ (∀ (prog cmd : String) (w : World), cmd = "on" ∨ cmd = "off" →
        (main [prog, cmd] w).status = some EXIT_SUCCESS →
        (main [prog, cmd] w).world.brightness = w.brightness ∧
        (main [prog, cmd] w).world.config = w.config ∧
        ∀ evs, (main [prog, cmd] w).world.log = w.log ++ evs →
          ∀ e ∈ evs, e.isPower = true) := by
  refine ⟨rfl, rfl, by decide, by decide, by decide, by decide, ?_⟩
  intro h
  have h1 := (h "rpi-backlight" "off" darkWorld (Or.inr rfl) (by decide)).1
  exact absurd h1 (by decide)

/-- Claim C7, amended. From every starting state whose device brightness lies in
[1,9], a successful invocation with `on` or `off` leaves the device brightness file
and the config file untouched: the power file is the only file written. -/
theorem on_off_frame (prog cmd : String) (w : World) (b : Int)
    (hcmd : cmd = "on" ∨ cmd = "off")
    (hb : w.brightness = some b) (hlo : 1 ≤ b) (hhi : b ≤ 9)
    (hs : (main [prog, cmd] w).status = some EXIT_SUCCESS) :
    (main [prog, cmd] w).world.brightness = w.brightness ∧
    (main [prog, cmd] w).world.config = w.config ∧
    ∃ q, (main [prog, cmd] w).world.log = w.log ++ [Event.powerWrite q] := by
  cases hp : w.power with
  | none =>
    rw [main_unavailable _ w (Or.inr hp)] at hs
    simp [Step.status, EXIT_FAILURE, EXIT_SUCCESS] at hs
  | some p =>
    have key : ∀ pv, (save_new_values b b pv w).world.brightness = w.brightness ∧
        (save_new_values b b pv w).world.config = w.config ∧
        ∃ q, (save_new_values b b pv w).world.log = w.log ++ [Event.powerWrite q] := by
      intro pv
      rcases save_new_values_cases b b pv b p w hb hp with
        ⟨_, e⟩ | ⟨h, _, _⟩ | ⟨h, _⟩ | ⟨h, _⟩
      · rw [e]; exact ⟨by simp [Step.world], by simp [Step.world], _, rfl⟩
      · exact absurd (clamp_brightness_id b hlo hhi).symm h
      · exact absurd (clamp_brightness_id b hlo hhi).symm h
      · exact absurd (clamp_brightness_id b hlo hhi).symm h
    rcases hcmd with rfl | rfl
    · rw [main_on prog w b p hb hp]; exact key _
    · rw [main_off prog w b p hb hp]; exact key _

/-- Witness for the amended C7 (end-to-end scenario 4): brightness 5, power 0, `off`. -/
theorem on_off_frame_witness :
    sampleWorld.brightness = some 5 ∧ (1 : Int) ≤ 5 ∧ (5 : Int) ≤ 9 ∧
    (main ["rpi-backlight", "off"] sampleWorld).status = some EXIT_SUCCESS ∧
    (main ["rpi-backlight", "off"] sampleWorld).world.brightness = sampleWorld.brightness ∧
    (main ["rpi-backlight", "off"] sampleWorld).world.config = sampleWorld.config ∧
    (main ["rpi-backlight", "off"] sampleWorld).world.log
      = sampleWorld.log ++ [Event.powerWrite 1] :=
  ⟨rfl, by decide, by decide, by decide,
   (on_off_frame "rpi-backlight" "off" sampleWorld 5 (Or.inr rfl) rfl (by decide) (by decide)
     (by decide)).1,
   (on_off_frame "rpi-backlight" "off" sampleWorld 5 (Or.inr rfl) rfl (by decide) (by decide)
     (by decide)).2.1,
   by decide⟩

/-- Claim C8. For each of the six brightness commands and every integer `p` held by the
power file at the start, a successful invocation writes the power file exactly once,
as its last write, with `p` when `p` is 0 or 1, with 0 (on) when `p > 1`, and with
1 (off) when `p < 0`. -/
theorem power_normalised (prog cmd : String) (w : World) (p : Int)
    (hcmd : cmd ∈ brightness_commands) (hp : w.power = some p)
    (hs : (main [prog, cmd] w).status = some EXIT_SUCCESS) :
    ∃ pre, (main [prog, cmd] w).world.log =
        w.log ++ (pre ++ [Event.powerWrite (if p = 0 ∨ p = 1 then p else if p > 1 then 0 else 1)]) ∧
      (∀ e ∈ pre, e.isPower = false) ∧
      (main [prog, cmd] w).world.power =
        some (if p = 0 ∨ p = 1 then p else if p > 1 then 0 else 1) := by
  have hmem : cmd ∈ commands := by
    simp only [brightness_commands, List.mem_cons, List.mem_singleton, List.not_mem_nil,
      or_false] at hcmd
    rcases hcmd with rfl | rfl | rfl | rfl | rfl | rfl <;> decide
  rw [← clamp_power_eq]
  by_cases hb0 : w.brightness = none
  · rw [main_unavailable _ w (Or.inl hb0)] at hs
    simp [Step.status, EXIT_FAILURE, EXIT_SUCCESS] at hs
  obtain ⟨b, hb⟩ := Option.ne_none_iff_exists'.mp hb0
  rcases main_cases prog cmd w b p hb hp hmem with
    ⟨_, _, _, e⟩ | ⟨bv, pv, _, hpv, _, e⟩ | ⟨_, hh, hm, _, hc, hcr, _, e⟩ |
    ⟨_, _, _, _, _, _, _, _, e⟩
  · rw [e] at hs; simp [Step.status, EXIT_FAILURE, EXIT_SUCCESS] at hs
  · obtain rfl := hpv hcmd
    rw [e] at hs ⊢
    rcases save_new_values_cases b bv pv b pv w hb hp with
      ⟨_, e1⟩ | ⟨_, _, e1⟩ | ⟨_, _, _, _, _, _, _, e1⟩ | ⟨_, _, _, _, pre, hpre, e1⟩
    · rw [e1]; exact ⟨[], by simp [Step.world], by simp, by simp [Step.world]⟩
    · rw [e1] at hs; simp [Step.status, EXIT_FAILURE, EXIT_SUCCESS] at hs
    · rw [e1] at hs; simp [Step.status] at hs
    · rw [e1]
      refine ⟨pre ++ [Event.configWrite (clamp_brightness bv),
        Event.brightnessWrite (clamp_brightness bv)], by simp [Step.world], ?_,
        by simp [Step.world]⟩
      rcases hpre with ⟨_, rfl⟩ | ⟨_, _, rfl⟩ <;> simp [Event.isPower]
  · rw [e] at hs ⊢
    rcases save_after_create_cases b DEFAULT_CONTENT p w hb hp hh hm with
      ⟨_, e1⟩ | ⟨_, _, e1⟩ | ⟨_, _, e1⟩
    · rw [e1]
      exact ⟨[Event.configCreate DEFAULT_CONTENT], by simp [Step.world],
        by simp [Event.isPower], by simp [Step.world]⟩
    · rw [e1] at hs; simp [Step.status] at hs
    · rw [e1]
      exact ⟨[Event.configCreate DEFAULT_CONTENT,
          Event.configWrite (clamp_brightness DEFAULT_CONTENT),
          Event.brightnessWrite (clamp_brightness DEFAULT_CONTENT)],
        by simp [Step.world], by simp [Event.isPower], by simp [Step.world]⟩
  · rw [e] at hs; simp [Step.status] at hs

/-- Witness for C8: a power file holding 7 is rewritten with 0, one holding -2 with 1,
one holding 1 with 1. -/
theorem power_normalised_witness :
    "up" ∈ brightness_commands ∧
    (main ["rpi-backlight", "up"] { sampleWorld with power := some 7 }).status
      = some EXIT_SUCCESS ∧
    (main ["rpi-backlight", "up"] { sampleWorld with power := some 7 }).world.power
      = some (if (7 : Int) = 0 ∨ (7 : Int) = 1 then 7 else if (7 : Int) > 1 then 0 else 1) ∧
    (main ["rpi-backlight", "up"] { sampleWorld with power := some 7 }).world.power = some 0 ∧
    (main ["rpi-backlight", "max"] { sampleWorld with power := some (-2) }).world.power
      = some 1 ∧
    (main ["rpi-backlight", "sync"] { sampleWorld with power := some 1 }).world.power
      = some 1 := by
  obtain ⟨_, _, _, h⟩ := power_normalised "rpi-backlight" "up"
    { sampleWorld with power := some 7 } 7 (by decide) rfl (by decide)
  exact ⟨by decide, by decide, h, by decide, by decide, by decide⟩

/-- Claim C9. In the sequence of writes of any invocation, every write to the device
brightness file is preceded, strictly earlier, by a write of the same value to the
config file; and whenever a brightness write occurs, the config file and the device
brightness file both hold that value afterwards. -/
theorem config_written_before_device (argv : List String) (w : World) :
    ∃ evs, (main argv w).world.log = w.log ++ evs ∧
      (∀ (i : Nat) (v : Int), evs[i]? = some (Event.brightnessWrite v) →
        ∃ j : Nat, j < i ∧ evs[j]? = some (Event.configWrite v)) ∧
      (∀ v, Event.brightnessWrite v ∈ evs →
        (main argv w).world.config = some v ∧ (main argv w).world.brightness = some v) := by
  rcases main_shapes argv w with
    e | e | ⟨pre, cfg, hpre, e⟩ | ⟨pre, q, cfg, hpre, e⟩ | ⟨pre, c, q, hpre, _, _, e⟩
  · exact ⟨[], by rw [e]; simp [Step.world], by simp, by simp⟩
  · exact ⟨[], by rw [e]; simp [Step.world], by simp, by simp⟩
  · refine ⟨pre, by rw [e]; rfl, ?_, ?_⟩
    · intro i v hi
      have hm := List.getElem?_mem hi
      rcases hpre with ⟨rfl, _⟩ | ⟨rfl, _⟩ <;> simp at hm
    · intro v hm
      rcases hpre with ⟨rfl, _⟩ | ⟨rfl, _⟩ <;> simp at hm
  · refine ⟨pre ++ [Event.powerWrite q], by rw [e]; rfl, ?_, ?_⟩
    · intro i v hi
      have hm := List.getElem?_mem hi
      rcases hpre with ⟨rfl, _⟩ | ⟨rfl, _⟩ <;> simp at hm
    · intro v hm
      rcases hpre with ⟨rfl, _⟩ | ⟨rfl, _⟩ <;> simp at hm
  · refine ⟨pre ++ [Event.configWrite c, Event.brightnessWrite c, Event.powerWrite q],
      by rw [e]; rfl, ?_, ?_⟩
    · intro i v hi
      rcases hpre with rfl | rfl
      · rcases i with _ | _ | _ | i
        · simp at hi
        · simp at hi; subst hi; exact ⟨0, by omega, by simp⟩
        · simp at hi
        · simp at hi
      · rcases i with _ | _ | _ | _ | i
        · simp at hi
        · simp at hi
        · simp at hi; subst hi; exact ⟨1, by omega, by simp⟩
        · simp at hi
        · simp at hi
    · intro v hm
      have hv : v = c := by
        rcases hpre with rfl | rfl <;> simpa using hm
      subst hv
      rw [e]
      simp [Step.world]

/-- Claim C10 as stated fails: with both device files available but `HOME` unset, the
recognised command `up` at brightness 5 ends with the failure status; and with a config
file that cannot be opened it crashes on the unchecked `fopen`. -/
theorem recognised_command_counterexample :
    homelessWorld.brightness = some 5 ∧ homelessWorld.power = some 0 ∧
    homelessWorld.home = none ∧
    main ["rpi-backlight", "up"] homelessWorld = .exit EXIT_FAILURE homelessWorld ∧
    (main ["rpi-backlight", "up"] lockedWorld).status = none ∧
    ¬ (∀ (prog cmd : String) (w : World), cmd ∈ commands →
        w.brightness ≠ none → w.power ≠ none →
        (main [prog, cmd] w).status = some EXIT_SUCCESS) := by
  refine ⟨rfl, rfl, rfl, by decide, by decide, ?_⟩
  intro h
  have h1 := h "rpi-backlight" "up" homelessWorld (by decide) (by decide) (by decide)
  exact absurd h1 (by decide)

/-- Claim C10, amended. An argument list that is not exactly one of the eight keywords
makes `main` return the failure status with no write at all (the world is unchanged).
An argument list that is exactly one of the eight keywords makes `main` end with the
success status when both device files are available, `HOME` is set, the buffer for the
config path is allocated, and every `fopen` of the config file succeeds (the file
exists or can be created, and can be opened for reading and for writing). -/
theorem command_line_status (prog : String) (w : World) :
    (∀ args : List String, (¬ ∃ c ∈ commands, args = [c]) →
        (main (prog :: args) w).status = some EXIT_FAILURE ∧
        (main (prog :: args) w).world = w) ∧
    (∀ cmd ∈ commands, w.brightness ≠ none → w.power ≠ none → w.home ≠ none →
        w.mallocOk = true → (w.config ≠ none ∨ w.configCreatable = true) →
        w.configReadable = true → w.configWritable = true →
        (main [prog, cmd] w).status = some EXIT_SUCCESS) := by
  constructor
  · intro args hargs
    have e : main (prog :: args) w = .ret EXIT_FAILURE w := by
      by_cases hlen : (prog :: args).length = 2
      · obtain ⟨cmd, rfl⟩ : ∃ cmd, args = [cmd] := by
          match args, hlen with
          | [c], _ => exact ⟨c, rfl⟩
        exact main_unrecognised prog cmd w (fun hc => hargs ⟨cmd, hc, rfl⟩)
      · exact main_wrong_count _ w hlen
    rw [e]
    exact ⟨rfl, rfl⟩
  · intro cmd hcmd hb hp hh hm hcfg hrd hwr
    obtain ⟨b, hb⟩ := Option.ne_none_iff_exists'.mp hb
    obtain ⟨p, hp⟩ := Option.ne_none_iff_exists'.mp hp
    have hnoexit : ¬ (w.home = none ∨ w.mallocOk = false ∨
        (w.config = none ∧ w.configCreatable = false)) := by
      rintro (hx | hx | ⟨hx1, hx2⟩)
      · exact hh hx
      · rw [hm] at hx; cases hx
      · rcases hcfg with hc1 | hc1
        · exact hc1 hx1
        · rw [hx2] at hc1; cases hc1
    rcases main_cases prog cmd w b p hb hp hcmd with
      ⟨_, hx, _, _⟩ | ⟨bv, pv, _, _, _, e⟩ | ⟨_, _, _, _, _, _, _, e⟩ |
      ⟨_, _, _, hx, _⟩
    · exact absurd hx hnoexit
    · rw [e]
      rcases save_new_values_cases b bv pv b p w hb hp with
        ⟨_, e1⟩ | ⟨_, hx, _⟩ | ⟨_, _, _, hx, _⟩ | ⟨_, _, _, _, pre, _, e1⟩
      · rw [e1]; rfl
      · exact absurd hx hnoexit
      · rw [hwr] at hx; cases hx
      · rw [e1]; rfl
    · rw [e]
      rcases save_after_create_cases b DEFAULT_CONTENT p w hb hp hh hm with
        ⟨_, e1⟩ | ⟨_, hx, _⟩ | ⟨_, _, e1⟩
      · rw [e1]; rfl
      · rw [hwr] at hx; cases hx
      · rw [e1]; rfl
    · rw [hrd] at hx; cases hx

/-- Witness for the amended C10 (end-to-end scenario 5): no argument, two arguments and
an unknown keyword fail without touching anything; `up` succeeds on a machine with
`HOME` set and a config file that can be opened. -/
theorem command_line_status_witness :
    (main ["rpi-backlight"] sampleWorld).status = some EXIT_FAILURE ∧
    (main ["rpi-backlight"] sampleWorld).world = sampleWorld ∧
    (main ["rpi-backlight", "up", "up"] sampleWorld).status = some EXIT_FAILURE ∧
    (main ["rpi-backlight", "UP"] sampleWorld).world = sampleWorld ∧
    (main ["rpi-backlight", "up"] sampleWorld).status = some EXIT_SUCCESS :=
  ⟨((command_line_status "rpi-backlight" sampleWorld).1 [] (by decide)).1,
   ((command_line_status "rpi-backlight" sampleWorld).1 [] (by decide)).2,
   ((command_line_status "rpi-backlight" sampleWorld).1 ["up", "up"] (by decide)).1,
   ((command_line_status "rpi-backlight" sampleWorld).1 ["UP"] (by decide)).2,
   (command_line_status "rpi-backlight" sampleWorld).2 "up" (by decide) (by decide)
     (by decide) (by decide) rfl (by decide) rfl rfl⟩

end RpiBacklight
